import Mathlib

/-
Shallow embedding of the expiration engine of the expire-tabs extension.

Sources embedded:
  src/src/utils/config.js        (getDefaults)
  src/src/utils/storage.js       (getSettings, addClosedTab, removeExpiredTab,
                                  setTabProtection, getTabKey, getProtectedKey)
  src/src/background/logic.js    (checkTabs, closeTab, cleanUpStorage)
  src/src/background/main.js     (bundled variants: unitToMs, getSettings)

Conventions: machine timestamps (ms since epoch) are modelled as Int, JS
`undefined` as `Option.none`.  JS truthiness tests that the code performs on
numbers and strings are modelled explicitly (0 and "" are falsy).  The
chrome.storage key/value store is split into the pieces the engine uses:
`tab_<id>` keys form a map `Nat → Option Int`, `protected_<id>` keys form a
presence map `Nat → Bool` (the code only ever writes the value `true`), and
the history list lives under a single key.
-/

/-- A live host item as returned by `chrome.tabs.query({})`: the fields the
engine reads (`id`, `title`, `url`, `pinned`, `audible`, `active`). -/
structure Tab where
  id : Nat
  title : String
  url : String
  pinned : Bool
  audible : Bool
  active : Bool
deriving DecidableEq

/-- A history entry (`ClosedTab` in storage.js).  `id` is `none` before
`addClosedTab` assigns one (the eviction path builds `{title, url, closedAt}`
with no id). -/
structure ClosedTab where
  id : Option String
  title : String
  url : String
  closedAt : Int
deriving DecidableEq

/-- The effective settings record `{timeout, unit, historyLimit}`. -/
structure Settings where
  timeout : Int
  unit : String
  historyLimit : Int
deriving DecidableEq

/-- The three stored settings fields as they sit in the store; `none` models
an unset key (`undefined` on read). -/
structure StoredSettings where
  timeout : Option Int
  unit : Option String
  historyLimit : Option Int
deriving DecidableEq

/-- The chrome.storage.local contents the engine touches: `tab_<id>` keys
(activity timestamps), `protected_<id>` keys (presence flags), and the
history list key. -/
structure LocalStore where
  tabTimes : Nat → Option Int
  protects : Nat → Bool
  closedTabs : List ClosedTab

/-- Full store state: settings (chrome.storage.sync for the storage.js
variant) plus the local store. -/
structure StoreState where
  sync : StoredSettings
  store : LocalStore

/-- config.js `getDefaults`: a copy of `defaultSettings`
(`timeout: 12, unit: "hours", historyLimit: 1000`; the bundle adds UI-only
fields `batchSize`/`loadMargin` which the engine never reads). -/
def getDefaults : Settings :=
  { timeout := 12, unit := "hours", historyLimit := 1000 }

/-- storage.js lines 24-40 `getSettings`: reads `timeout`, `unit`,
`historyLimit` and applies `result.timeout || 30`, `result.unit || "minutes"`
and `result.historyLimit !== undefined ? result.historyLimit : 100`.  The
`||` fallbacks fire on JS-falsy values, so a stored 0 timeout or empty-string
unit also yields the default; the `historyLimit` check only tests
`undefined`, so a stored 0 is kept. -/
def getSettings (s : StoredSettings) : Settings :=
  { timeout := match s.timeout with
      | none => 30
      | some v => if v = 0 then 30 else v
    unit := match s.unit with
      | none => "minutes"
      | some u => if u = "" then "minutes" else u
    historyLimit := match s.historyLimit with
      | none => 100
      | some v => v }

/-- main.js lines 119-130 (bundled) `getSettings`: reads the three fields
from the local store and applies `?? defaults.<field>` per field, with the
defaults taken from `getDefaults`.  `??` only fires on `null`/`undefined`,
so every stored value, falsy or not, overrides exactly its own default. -/
def getSettingsMain (s : StoredSettings) : Settings :=
  { timeout := s.timeout.getD getDefaults.timeout
    unit := s.unit.getD getDefaults.unit
    historyLimit := s.historyLimit.getD getDefaults.historyLimit }

/-- main.js lines 76-86 (bundled) `unitToMs`: switch over
"minutes"/"hours"/"days", otherwise `throw new Error("Invalid unit: " + unit)`
(modelled as `Except.error`). -/
def unitToMs (unit : String) : Except String Int :=
  if unit = "minutes" then Except.ok 60000
  else if unit = "hours" then Except.ok 3600000
  else if unit = "days" then Except.ok 86400000
  else Except.error ("Invalid unit: " ++ unit)

/-- logic.js lines 18-23, the multiplier computation inside `checkTabs`:
`let multiplier = 60 * 1000; if (unit === "hours") ... else if (unit ===
"days") ...`.  Any unit other than "hours"/"days" (including unrecognized
ones) keeps the initial minutes multiplier. -/
def checkTabsMultiplier (unit : String) : Int :=
  if unit = "hours" then 3600000
  else if unit = "days" then 86400000
  else 60000

/-- JS truthiness of a possibly-absent stored timestamp: `!lastActive` is
true when the key is absent (`undefined`) or the stored number is 0. -/
def tsFalsy : Option Int → Bool
  | none => true
  | some v => v == 0

/-- logic.js lines 62-68: the effective `lastActive` used by the expiry test;
a falsy stored value is replaced by `now`. -/
def lastActiveOf (now : Int) (stored : Option Int) : Int :=
  if tsFalsy stored then now else stored.getD 0

/-- storage.js lines 77-86: `if (!tabInfo.id)` assign a freshly generated id
(the generated string is passed in as `fid`).  An absent id or an (falsy)
empty-string id is replaced. -/
def assignId (fid : String) (info : ClosedTab) : ClosedTab :=
  match info.id with
  | none => { info with id := some fid }
  | some s => if s = "" then { info with id := some fid } else info

/-- storage.js lines 72-100 `addClosedTab` (named `addExpiredTab` in the
bundle), with the `historyLimit` it reads via `getSettings` passed in:
assign an id if missing, `unshift` (prepend), then
`if (historyLimit !== -1 && tabs.length > historyLimit) tabs.length =
historyLimit` (truncate to the first `historyLimit` elements).  For
`historyLimit < -1` the source would throw a RangeError on the length
assignment; this model is only used on the settings domain
`historyLimit = -1 ∨ historyLimit ≥ 0`. -/
def addClosedTab (fid : String) (historyLimit : Int) (tabs : List ClosedTab)
    (info : ClosedTab) : List ClosedTab :=
  let l := assignId fid info :: tabs
  if historyLimit ≠ -1 ∧ (l.length : Int) > historyLimit then
    l.take historyLimit.toNat
  else l

/-- JS `String(x)` applied to a possibly-absent id: `String(undefined)` is
the string "undefined". -/
def jsStringOfId : Option String → String
  | none => "undefined"
  | some s => s

/-- storage.js lines 107-118 `removeExpiredTab`: keep the entries `t` with
`String(t.id) !== String(tabId)`. -/
def removeExpiredTab (tabs : List ClosedTab) (tabId : String) : List ClosedTab :=
  tabs.filter (fun t => jsStringOfId t.id != tabId)

/-- storage.js lines 166-180 `setTabProtection`: with `isProtected = true`
write `protected_<id> = true` and nothing else; with `isProtected = false`
remove `protected_<id>` and write `tab_<id> = Date.now()` (the `now`
argument). -/
def setTabProtection (now : Int) (st : LocalStore) (tabId : Nat)
    (isProtected : Bool) : LocalStore :=
  if isProtected then
    { st with protects := fun i => if i = tabId then true else st.protects i }
  else
    { st with
      protects := fun i => if i = tabId then false else st.protects i
      tabTimes := fun i => if i = tabId then some now else st.tabTimes i }

/-- logic.js lines 50-74, the per-candidate loop of `checkTabs`.  The
accumulators mirror the source: `updates` is the set of `tab_<id>` keys
staged to be written to `now` (an object keyed by `tab_<id>`, so a list of
ids), `hist` is the history list as mutated by the `closeTab` →
`addExpiredTab` calls issued so far, `ids` is the list of tab ids passed to
`chrome.tabs.remove` so far, and `cnt` counts evictions so that the
`fid`/`cat` streams supply the freshly generated history id and the
`Date.now()` value taken inside `closeTab` for each one. -/
def sweepLoop (pr : Nat → Bool) (tt : Nat → Option Int) (now timeoutMs : Int)
    (historyLimit : Int) (fid : Nat → String) (cat : Nat → Int) :
    List Tab → List Nat → List ClosedTab → List Nat → Nat →
    List Nat × List ClosedTab × List Nat
  | [], updates, hist, ids, _ => (updates, hist, ids)
  | t :: rest, updates, hist, ids, cnt =>
    if pr t.id then
      sweepLoop pr tt now timeoutMs historyLimit fid cat rest updates hist ids cnt
    else if t.active then
      sweepLoop pr tt now timeoutMs historyLimit fid cat rest
        (updates ++ [t.id]) hist ids cnt
    else
      let stored := tt t.id
      let lastActive := lastActiveOf now stored
      let updates' := if tsFalsy stored then updates ++ [t.id] else updates
      if now - lastActive > timeoutMs then
        sweepLoop pr tt now timeoutMs historyLimit fid cat rest updates'
          (addClosedTab (fid cnt) historyLimit hist
            { id := none, title := t.title, url := t.url, closedAt := cat cnt })
          (ids ++ [t.id]) (cnt + 1)
      else
        sweepLoop pr tt now timeoutMs historyLimit fid cat rest updates' hist ids cnt

/-- logic.js lines 34-36: the candidate filter (`if (tab.pinned) continue;
if (tab.audible) continue;`). -/
def candidateP (t : Tab) : Bool :=
  !t.pinned && !t.audible

/-- logic.js lines 15-79 `checkTabs`, one sweep run.  Inputs: the eviction
id/timestamp streams, the single `now` taken at sweep start, the live tab
list, and the store state.  Output: the store state after the sweep and the
list of tab ids the sweep closed.  The settings come from storage.js
`getSettings`; `timeoutMs = timeout * multiplier` with the inline multiplier;
`keysToFetch.length === 0` (the early return) is equivalent to the candidate
list being empty; the staged `updates` are flushed at the end by writing
each staged `tab_<id>` key to `now`.  The sweep never writes the settings
store, so `sync` is returned unchanged. -/
def checkTabs (fid : Nat → String) (cat : Nat → Int) (now : Int)
    (tabs : List Tab) (st : StoreState) : StoreState × List Nat :=
  let s := getSettings st.sync
  let timeoutMs := s.timeout * checkTabsMultiplier s.unit
  let tabsToCheck := tabs.filter candidateP
  if tabsToCheck.isEmpty then (st, [])
  else
    let r := sweepLoop st.store.protects st.store.tabTimes now timeoutMs
      s.historyLimit fid cat tabsToCheck [] st.store.closedTabs [] 0
    (⟨st.sync,
      { tabTimes := fun i => if i ∈ r.1 then some now else st.store.tabTimes i
        protects := st.store.protects
        closedTabs := r.2.1 }⟩, r.2.2)

/-- A key of the local store as seen by the janitor: `tab_<id>` keys,
`protected_<id>` keys, the history list key, and any other key (settings
and similar keys, none of which start with `tab_` or `protected_`). -/
inductive LKey where
  | tab (id : Nat)
  | prot (id : Nat)
  | closedTabs
  | other (s : String)
deriving DecidableEq

/-- logic.js lines 134-144, the removal test of `cleanUpStorage`: for a
`tab_<id>` or `protected_<id>` key, `parseInt` of the suffix recovers `id`,
and the key is collected when `tabId && !openTabIds.has(tabId)` — the JS
truthiness guard makes an id of 0 (falsy) never removable.  Keys with
neither prefix leave `tabId` undefined (falsy) and are never removed. -/
def janitorRemoves (live : List Nat) : LKey → Bool
  | LKey.tab i => decide (i ≠ 0) && !(live.contains i)
  | LKey.prot i => decide (i ≠ 0) && !(live.contains i)
  | LKey.closedTabs => false
  | LKey.other _ => false

/-- logic.js lines 126-150 `cleanUpStorage`: read all keys, collect
`keysToRemove` by `janitorRemoves`, and remove them; the result is the list
of surviving keys. -/
def cleanUpStorage (keys : List LKey) (live : List Nat) : List LKey :=
  keys.filter (fun k => !janitorRemoves live k)

/-- Derived predicate: the loop stages `updates[tab_<id>] = now` for a
candidate exactly when it is unprotected and either active or has a falsy
stored timestamp. -/
def touchP (pr : Nat → Bool) (tt : Nat → Option Int) (t : Tab) : Bool :=
  !pr t.id && (t.active || tsFalsy (tt t.id))

/-- Derived predicate: the loop evicts a candidate exactly when it is
unprotected, not active, and `now - lastActive > timeoutMs`. -/
def evictP (pr : Nat → Bool) (tt : Nat → Option Int) (now timeoutMs : Int)
    (t : Tab) : Bool :=
  !pr t.id && !t.active && decide (now - lastActiveOf now (tt t.id) > timeoutMs)

/-- Derived history effect: the successive `addClosedTab` calls issued for
the evicted tabs, consuming the id/timestamp streams from index `cnt`. -/
def appendEvicted (historyLimit : Int) (fid : Nat → String) (cat : Nat → Int) :
    List ClosedTab → Nat → List Tab → List ClosedTab
  | hist, _, [] => hist
  | hist, cnt, t :: rest =>
    appendEvicted historyLimit fid cat
      (addClosedTab (fid cnt) historyLimit hist
        { id := none, title := t.title, url := t.url, closedAt := cat cnt })
      (cnt + 1) rest

/- Characterization of the sweep loop: the three outputs are governed by the
pointwise predicates `touchP` and `evictP`, because each candidate's
decision reads only the pre-sweep store snapshot. -/

lemma sweepLoop_spec (pr : Nat → Bool) (tt : Nat → Option Int)
    (now timeoutMs historyLimit : Int) (fid : Nat → String) (cat : Nat → Int)
    (ts : List Tab) :
    ∀ (updates : List Nat) (hist : List ClosedTab) (ids : List Nat) (cnt : Nat),
      sweepLoop pr tt now timeoutMs historyLimit fid cat ts updates hist ids cnt =
        (updates ++ (ts.filter (touchP pr tt)).map Tab.id,
         appendEvicted historyLimit fid cat hist cnt
           (ts.filter (evictP pr tt now timeoutMs)),
         ids ++ (ts.filter (evictP pr tt now timeoutMs)).map Tab.id) := by
  induction ts with
  | nil => intro u h i c; simp [sweepLoop, appendEvicted]
  | cons t rest ih =>
    intro u h i c
    by_cases hp : pr t.id
    · simp [sweepLoop, hp, touchP, evictP, ih]
    · by_cases ha : t.active
      · simp [sweepLoop, hp, ha, touchP, evictP, ih]
      · by_cases he : now - lastActiveOf now (tt t.id) > timeoutMs
        · by_cases hf : tsFalsy (tt t.id)
          · simp [sweepLoop, hp, ha, he, hf, touchP, evictP, ih, appendEvicted]
          · simp [sweepLoop, hp, ha, he, hf, touchP, evictP, ih, appendEvicted]
        · by_cases hf : tsFalsy (tt t.id)
          · simp [sweepLoop, hp, ha, he, hf, touchP, evictP, ih]
          · simp [sweepLoop, hp, ha, he, hf, touchP, evictP, ih]

lemma checkTabs_eq (fid : Nat → String) (cat : Nat → Int) (now : Int)
    (tabs : List Tab) (st : StoreState) :
    checkTabs fid cat now tabs st =
      (⟨st.sync,
        { tabTimes := fun i =>
            if i ∈ ((tabs.filter candidateP).filter
                (touchP st.store.protects st.store.tabTimes)).map Tab.id
            then some now else st.store.tabTimes i
          protects := st.store.protects
          closedTabs :=
            appendEvicted (getSettings st.sync).historyLimit fid cat
              st.store.closedTabs 0
              ((tabs.filter candidateP).filter
                (evictP st.store.protects st.store.tabTimes now
                  ((getSettings st.sync).timeout *
                    checkTabsMultiplier (getSettings st.sync).unit))) }⟩,
       ((tabs.filter candidateP).filter
          (evictP st.store.protects st.store.tabTimes now
            ((getSettings st.sync).timeout *
              checkTabsMultiplier (getSettings st.sync).unit))).map Tab.id) := by
  simp only [checkTabs]
  by_cases hE : (tabs.filter candidateP).isEmpty
  · have h0 : tabs.filter candidateP = [] := by simpa using hE
    simp [hE, h0, appendEvicted]
  · simp only [hE, Bool.false_eq_true, if_false, sweepLoop_spec, List.nil_append]

lemma checkTabsMultiplier_pos (u : String) : 0 < checkTabsMultiplier u := by
  unfold checkTabsMultiplier
  split_ifs <;> norm_num

/-- C1: In one sweep run (`checkTabs`) over the live items, an item is
evicted (its id is in the list of closed ids) if and only if it is not
pinned, not audible, not protected, not active, has a previously stored
last-active timestamp, and `now - lastActive > timeoutMs` with strict
inequality, where `timeoutMs` is the settings timeout times the unit
multiplier; in particular an idle duration equal to `timeoutMs` does not
evict.  Hypotheses: live item ids are pairwise distinct (host-assigned ids),
the effective timeout is nonnegative (the settings boundary only accepts
positive timeouts), and stored timestamps are positive (they are produced by
`Date.now()`). -/
theorem checkTabs_eviction_iff (fid : Nat → String) (cat : Nat → Int)
    (now : Int) (tabs : List Tab) (st : StoreState) (t : Tab)
    (ht : t ∈ tabs) (hnd : (tabs.map Tab.id).Nodup)
    (htimeout : 0 ≤ (getSettings st.sync).timeout)
    (hts : ∀ i v, st.store.tabTimes i = some v → 0 < v) :
    t.id ∈ (checkTabs fid cat now tabs st).2 ↔
      (t.pinned = false ∧ t.audible = false ∧
       st.store.protects t.id = false ∧ t.active = false ∧
       ∃ v, st.store.tabTimes t.id = some v ∧
         now - v > (getSettings st.sync).timeout *
           checkTabsMultiplier (getSettings st.sync).unit) := by
  have hms : 0 ≤ (getSettings st.sync).timeout *
      checkTabsMultiplier (getSettings st.sync).unit :=
    mul_nonneg htimeout (le_of_lt (checkTabsMultiplier_pos _))
  rw [checkTabs_eq]
  simp only [List.mem_map, List.mem_filter]
  constructor
  · rintro ⟨t', ⟨⟨ht'm, hcand⟩, hev⟩, hid⟩
    have heq : t = t' := (List.inj_on_of_nodup_map hnd ht'm ht hid).symm
    subst heq
    rw [candidateP, Bool.and_eq_true, Bool.not_eq_true'] at hcand
    rw [evictP, Bool.and_eq_true, Bool.and_eq_true, Bool.not_eq_true',
      Bool.not_eq_true', decide_eq_true_eq] at hev
    obtain ⟨⟨hp, ha⟩, hgt⟩ := hev
    refine ⟨hcand.1, by simpa using hcand.2, hp, ha, ?_⟩
    cases hstored : st.store.tabTimes t.id with
    | none =>
      rw [lastActiveOf, hstored] at hgt
      simp only [tsFalsy, if_true] at hgt
      omega
    | some v =>
      have hv : 0 < v := hts _ _ hstored
      rw [lastActiveOf, hstored] at hgt
      have hfal : tsFalsy (some v) = false := by
        simp only [tsFalsy, beq_eq_false_iff_ne, ne_eq]
        omega
      rw [hfal] at hgt
      simp only [if_false, Option.getD_some] at hgt
      exact ⟨v, rfl, hgt⟩
  · rintro ⟨hpin, haud, hprot, hact, v, hstored, hgt⟩
    refine ⟨t, ⟨⟨ht, ?_⟩, ?_⟩, rfl⟩
    · simp [candidateP, hpin, haud]
    · have hv : 0 < v := hts _ _ hstored
      have hfal : tsFalsy (some v) = false := by
        simp only [tsFalsy, beq_eq_false_iff_ne, ne_eq]
        omega
      simp [evictP, hprot, hact, lastActiveOf, hstored, hfal, hgt]

/-- C2: A sweep run never evicts a protected item and leaves its stored
last-active timestamp untouched, for any storage state and any live item
set (so regardless of idle duration, pinned state, audible state, or active
state): the loop skips the item before any timestamp staging or eviction
decision. -/
theorem checkTabs_protected_skip (fid : Nat → String) (cat : Nat → Int)
    (now : Int) (tabs : List Tab) (st : StoreState) (tabId : Nat)
    (hp : st.store.protects tabId = true) :
    tabId ∉ (checkTabs fid cat now tabs st).2 ∧
    (checkTabs fid cat now tabs st).1.store.tabTimes tabId =
      st.store.tabTimes tabId := by
  rw [checkTabs_eq]
  constructor
  · intro hmem
    obtain ⟨t', ht', hid⟩ := List.mem_map.mp hmem
    have hev := (List.mem_filter.mp ht').2
    rw [evictP, Bool.and_eq_true, Bool.and_eq_true, Bool.not_eq_true'] at hev
    rw [hid] at hev
    rw [hev.1.1] at hp
    cases hp
  · have hni : tabId ∉ ((tabs.filter candidateP).filter
        (touchP st.store.protects st.store.tabTimes)).map Tab.id := by
      intro hmem
      obtain ⟨t', ht', hid⟩ := List.mem_map.mp hmem
      have htv := (List.mem_filter.mp ht').2
      rw [touchP, Bool.and_eq_true, Bool.not_eq_true'] at htv
      rw [hid] at htv
      rw [htv.1] at hp
      cases hp
    simp only [if_neg hni]

/-- C8: A non-pinned, non-audible, non-protected, non-active item with no
previously stored last-active timestamp gets its timestamp staged to the
sweep's `now` and is not evicted on that same sweep, for every (nonnegative)
timeout setting. -/
theorem checkTabs_fresh_first_sweep (fid : Nat → String) (cat : Nat → Int)
    (now : Int) (tabs : List Tab) (st : StoreState) (t : Tab)
    (ht : t ∈ tabs) (hpin : t.pinned = false) (haud : t.audible = false)
    (hprot : st.store.protects t.id = false) (_hact : t.active = false)
    (hfresh : st.store.tabTimes t.id = none)
    (htimeout : 0 ≤ (getSettings st.sync).timeout) :
    (checkTabs fid cat now tabs st).1.store.tabTimes t.id = some now ∧
    t.id ∉ (checkTabs fid cat now tabs st).2 := by
  have hms : 0 ≤ (getSettings st.sync).timeout *
      checkTabsMultiplier (getSettings st.sync).unit :=
    mul_nonneg htimeout (le_of_lt (checkTabsMultiplier_pos _))
  rw [checkTabs_eq]
  constructor
  · have hmem : t.id ∈ ((tabs.filter candidateP).filter
        (touchP st.store.protects st.store.tabTimes)).map Tab.id := by
      refine List.mem_map.mpr ⟨t, List.mem_filter.mpr
        ⟨List.mem_filter.mpr ⟨ht, ?_⟩, ?_⟩, rfl⟩
      · simp [candidateP, hpin, haud]
      · simp [touchP, hprot, hfresh, tsFalsy]
    simp only [if_pos hmem]
  · intro hmem
    obtain ⟨t', ht', hid⟩ := List.mem_map.mp hmem
    have hev := (List.mem_filter.mp ht').2
    rw [evictP, Bool.and_eq_true, Bool.and_eq_true, decide_eq_true_eq] at hev
    have hgt := hev.2
    rw [lastActiveOf, hid, hfresh] at hgt
    simp only [tsFalsy, if_true] at hgt
    omega

/-- C10: Key-level frame of one sweep run: the settings store is untouched,
no protection key is written, no key is removed (stored timestamps are never
cleared), the activity-timestamp keys written are exactly those of
unprotected candidates that are active or freshly observed — each set to the
single `now` of the sweep, all other timestamps unchanged — and the history
list changes only by the `addClosedTab` appends performed for the evicted
candidates.  Hypothesis: stored timestamps are positive (produced by
`Date.now()`). -/
theorem checkTabs_key_frame (fid : Nat → String) (cat : Nat → Int) (now : Int)
    (tabs : List Tab) (st : StoreState)
    (hts : ∀ i v, st.store.tabTimes i = some v → 0 < v) :
    (checkTabs fid cat now tabs st).1.sync = st.sync ∧
    (checkTabs fid cat now tabs st).1.store.protects = st.store.protects ∧
    (∀ i : Nat, (checkTabs fid cat now tabs st).1.store.tabTimes i =
      if i ∈ ((tabs.filter candidateP).filter
          (fun t => !st.store.protects t.id &&
            (t.active || (st.store.tabTimes t.id).isNone))).map Tab.id
      then some now else st.store.tabTimes i) ∧
    (checkTabs fid cat now tabs st).1.store.closedTabs =
      appendEvicted (getSettings st.sync).historyLimit fid cat
        st.store.closedTabs 0
        ((tabs.filter candidateP).filter
          (evictP st.store.protects st.store.tabTimes now
            ((getSettings st.sync).timeout *
              checkTabsMultiplier (getSettings st.sync).unit))) := by
  have hfe : (tabs.filter candidateP).filter
        (touchP st.store.protects st.store.tabTimes)
      = (tabs.filter candidateP).filter
          (fun t => !st.store.protects t.id &&
            (t.active || (st.store.tabTimes t.id).isNone)) := by
    apply List.filter_congr
    intro a _
    rw [touchP]
    cases h' : st.store.tabTimes a.id with
    | none => rfl
    | some v =>
      have hv : 0 < v := hts _ _ h'
      have hb : (v == (0 : Int)) = false := beq_eq_false_iff_ne.mpr (by omega)
      simp [tsFalsy, hb]
  rw [checkTabs_eq]
  refine ⟨rfl, rfl, fun i => ?_, rfl⟩
  rw [hfe]

/-- C3: History append (`addClosedTab`, `addExpiredTab` in the bundle)
assigns an id if missing, prepends (newest first), and trims from the oldest
end (highest indices): when the effective `historyLimit` is not -1 the
result is a front segment of the prepended list of length at most
`historyLimit` (a stored limit of 0 yields the empty list); when it is -1 no
trimming occurs and the length grows by exactly one. -/
theorem addClosedTab_spec (sync : StoredSettings) (tabs : List ClosedTab)
    (info : ClosedTab) (fid : String) :
    ((getSettings sync).historyLimit = -1 →
      addClosedTab fid (getSettings sync).historyLimit tabs info =
        assignId fid info :: tabs ∧
      (addClosedTab fid (getSettings sync).historyLimit tabs info).length =
        tabs.length + 1) ∧
    (0 ≤ (getSettings sync).historyLimit →
      addClosedTab fid (getSettings sync).historyLimit tabs info =
        (assignId fid info :: tabs).take
          (min (getSettings sync).historyLimit.toNat (tabs.length + 1)) ∧
      ((addClosedTab fid (getSettings sync).historyLimit tabs info).length : Int)
        ≤ (getSettings sync).historyLimit) ∧
    (sync.historyLimit = some 0 →
      addClosedTab fid (getSettings sync).historyLimit tabs info = []) ∧
    ((getSettings sync).historyLimit = -1 ∨ 0 < (getSettings sync).historyLimit →
      (addClosedTab fid (getSettings sync).historyLimit tabs info).head? =
        some (assignId fid info)) := by
  refine ⟨?_, ?_, ?_, ?_⟩
  · intro h
    simp [addClosedTab, h]
  · intro h
    simp only [addClosedTab]
    split_ifs with hc
    · have hlt : ((tabs.length : Int) + 1) > (getSettings sync).historyLimit := by
        simpa using hc.2
      constructor
      · congr 1
        omega
      · rw [List.length_take]
        push_cast
        omega
    · rw [not_and_or] at hc
      have hle : ((tabs.length : Int) + 1) ≤ (getSettings sync).historyLimit := by
        rcases hc with hc | hc
        · omega
        · simpa using hc
      have hmin : min (getSettings sync).historyLimit.toNat (tabs.length + 1) =
          tabs.length + 1 := by omega
      constructor
      · rw [hmin]
        exact ((assignId fid info :: tabs).take_length).symm
      · simp only [List.length_cons]
        push_cast
        omega
  · intro h
    have h0 : (getSettings sync).historyLimit = 0 := by
      simp [getSettings, h]
    rw [h0]
    simp only [addClosedTab]
    rw [if_pos]
    · simp
    · refine ⟨by decide, ?_⟩
      simp only [List.length_cons]
      push_cast
      omega
  · intro h
    rcases h with h | h
    · simp [addClosedTab, h]
    · simp only [addClosedTab]
      split_ifs with hc
    -- take k of a cons with k ≥ 1 keeps the head
      · obtain ⟨m, hm⟩ : ∃ m, (getSettings sync).historyLimit.toNat = m + 1 :=
          ⟨(getSettings sync).historyLimit.toNat - 1, by omega⟩
        rw [hm, List.take_succ_cons]
        rfl
      · rfl

/-- C9: History removal by id (`removeExpiredTab`) is idempotent — removing
the same id twice equals removing it once — and removing an id that matches
no entry (matching is by string-coerced equality, `String(t.id) !==
String(tabId)`) leaves the list unchanged. -/
theorem removeExpiredTab_idem (tabs : List ClosedTab) (tabId : String) :
    removeExpiredTab (removeExpiredTab tabs tabId) tabId =
      removeExpiredTab tabs tabId ∧
    ((∀ t ∈ tabs, jsStringOfId t.id ≠ tabId) →
      removeExpiredTab tabs tabId = tabs) := by
  constructor
  · simp [removeExpiredTab, List.filter_filter]
  · intro h
    rw [removeExpiredTab]
    apply List.filter_eq_self.mpr
    intro a ha
    simpa using h a ha

/-- C6: `setTabProtection(id, false)` removes the protection flag and writes
the item's activity timestamp to the given current time, leaving all other
items alone, so a sweep run immediately afterwards (same `now`, nonnegative
timeout) does not evict the item; `setTabProtection(id, true)` writes the
flag only and leaves every timestamp and the history list unchanged. -/
theorem setTabProtection_spec (st : LocalStore) (tabId : Nat) (now : Int) :
    ((setTabProtection now st tabId false).protects tabId = false ∧
     (setTabProtection now st tabId false).tabTimes tabId = some now ∧
     (setTabProtection now st tabId false).closedTabs = st.closedTabs ∧
     (∀ j, j ≠ tabId →
       (setTabProtection now st tabId false).protects j = st.protects j ∧
       (setTabProtection now st tabId false).tabTimes j = st.tabTimes j)) ∧
    ((setTabProtection now st tabId true).protects tabId = true ∧
     (setTabProtection now st tabId true).tabTimes = st.tabTimes ∧
     (setTabProtection now st tabId true).closedTabs = st.closedTabs) ∧
    (∀ (sync : StoredSettings) (tabs : List Tab)
       (fid : Nat → String) (cat : Nat → Int),
       0 ≤ (getSettings sync).timeout →
       tabId ∉ (checkTabs fid cat now tabs
         ⟨sync, setTabProtection now st tabId false⟩).2) := by
  refine ⟨⟨by simp [setTabProtection], by simp [setTabProtection],
      by simp [setTabProtection], fun j hj => ⟨by simp [setTabProtection, hj],
      by simp [setTabProtection, hj]⟩⟩,
    ⟨by simp [setTabProtection], by simp [setTabProtection],
      by simp [setTabProtection]⟩, ?_⟩
  intro sync tabs fid cat htimeout hmem
  have hms : 0 ≤ (getSettings sync).timeout *
      checkTabsMultiplier (getSettings sync).unit :=
    mul_nonneg htimeout (le_of_lt (checkTabsMultiplier_pos _))
  rw [checkTabs_eq] at hmem
  dsimp only at hmem
  obtain ⟨t', ht', hid⟩ := List.mem_map.mp hmem
  have hev := (List.mem_filter.mp ht').2
  rw [evictP, Bool.and_eq_true, Bool.and_eq_true, decide_eq_true_eq] at hev
  have hgt := hev.2
  rw [hid] at hgt
  have hset : (setTabProtection now st tabId false).tabTimes tabId = some now := by
    simp [setTabProtection]
  rw [hset] at hgt
  have hla : lastActiveOf now (some now) = now := by
    by_cases h0 : now = 0 <;> simp [lastActiveOf, tsFalsy, h0]
  rw [hla] at hgt
  omega

/-- C7: One run of the janitor (`cleanUpStorage`) removes exactly the
per-item tracked keys (`tab_<id>` and `protected_<id>`) whose id is not in
the live item set and removes nothing else: tracked keys for live ids, the
history-list key, and all other (settings-like) keys survive.  Hypothesis:
every tracked id in storage is positive, as host-assigned tab ids are
(`parseInt` of the key suffix is guarded by JS truthiness, so an id of 0
would never be removed). -/
theorem cleanUpStorage_spec (keys : List LKey) (live : List Nat)
    (h : ∀ i : Nat, (LKey.tab i ∈ keys ∨ LKey.prot i ∈ keys) → 0 < i) :
    cleanUpStorage keys live =
      keys.filter (fun k => match k with
        | LKey.tab i => live.contains i
        | LKey.prot i => live.contains i
        | LKey.closedTabs => true
        | LKey.other _ => true) := by
  rw [cleanUpStorage]
  apply List.filter_congr
  intro k hk
  cases k with
  | tab i =>
    have hi : i ≠ 0 := Nat.pos_iff_ne_zero.mp (h i (Or.inl hk))
    simp [janitorRemoves, hi]
  | prot i =>
    have hi : i ≠ 0 := Nat.pos_iff_ne_zero.mp (h i (Or.inr hk))
    simp [janitorRemoves, hi]
  | closedTabs => simp [janitorRemoves]
  | other s => simp [janitorRemoves]

/-- C4 counterexample: the sweep's timeout computation (`checkTabs` in
logic.js, lines 16-25) does silently fall back to the default minutes
multiplier for the unrecognized unit "weeks", while `unitToMs` fails; a
concrete sweep with `unit = "weeks"` evicts a tab idle for under 32 minutes,
treating the stored timeout 30 as minutes instead of failing. -/
theorem checkTabs_silent_unit_fallback :
    ("weeks" ≠ "minutes" ∧ "weeks" ≠ "hours" ∧ "weeks" ≠ "days") ∧
    unitToMs "weeks" = Except.error "Invalid unit: weeks" ∧
    checkTabsMultiplier "weeks" = 60000 ∧
    (checkTabs (fun _ => "uid") (fun _ => 2000000) 2000000
        [{ id := 7, title := "t", url := "u",
           pinned := false, audible := false, active := false }]
        ⟨⟨some 30, some "weeks", some 10⟩,
         ⟨fun i => if i = 7 then some 100000 else none,
          fun _ => false, []⟩⟩).2 = [7] := by
  exact ⟨⟨by decide, by decide, by decide⟩, rfl, rfl, by decide⟩

/-- C4 amended: `unitToMs` (main.js) returns 60000, 3600000 and 86400000
for "minutes", "hours" and "days" and fails with `Invalid unit` for every
other symbol; the sweep in logic.js, however, does not call it — it computes
its multiplier inline and silently falls back to the minutes multiplier
60000 for every unit other than "hours" and "days". -/
theorem unitToMs_spec :
    unitToMs "minutes" = Except.ok 60000 ∧
    unitToMs "hours" = Except.ok 3600000 ∧
    unitToMs "days" = Except.ok 86400000 ∧
    (∀ u : String, u ≠ "minutes" → u ≠ "hours" → u ≠ "days" →
      unitToMs u = Except.error ("Invalid unit: " ++ u) ∧
      checkTabsMultiplier u = 60000) := by
  refine ⟨rfl, rfl, rfl, fun u h1 h2 h3 => ⟨?_, ?_⟩⟩
  · simp [unitToMs, h1, h2, h3]
  · simp [checkTabsMultiplier, h2, h3]

/-- C4 witness for the amended theorem, at the concrete unit "weeks". -/
theorem unitToMs_spec_witness :
    unitToMs "weeks" = Except.error ("Invalid unit: " ++ "weeks") ∧
    checkTabsMultiplier "weeks" = 60000 :=
  unitToMs_spec.2.2.2 "weeks" (by decide) (by decide) (by decide)

/-- C5 counterexample: the settings read `getSettings` of
src/src/utils/storage.js (the one the logic.js sweep imports), on an empty
store, returns timeout 30, unit "minutes", historyLimit 100 — not the
claimed 12 / "hours" / 1000. -/
theorem getSettings_empty_defaults :
    getSettings ⟨none, none, none⟩ =
      { timeout := 30, unit := "minutes", historyLimit := 100 } ∧
    getSettings ⟨none, none, none⟩ ≠
      { timeout := 12, unit := "hours", historyLimit := 1000 } :=
  ⟨rfl, by decide⟩

/-- C5 amended: the bundled settings read (`getSettings` of
src/src/background/main.js) returns the defaults timeout 12, unit "hours",
historyLimit 1000 from `getDefaults` when nothing is stored, and each stored
field overrides only its own default (`??` semantics); the `getSettings` of
src/src/utils/storage.js instead returns 30 / "minutes" / 100 on an empty
store. -/
theorem getSettingsMain_defaults_spec :
    getSettingsMain ⟨none, none, none⟩ = getDefaults ∧
    getSettingsMain ⟨none, none, none⟩ =
      { timeout := 12, unit := "hours", historyLimit := 1000 } ∧
    (∀ s : StoredSettings,
      (s.timeout = none → (getSettingsMain s).timeout = 12) ∧
      (∀ v, s.timeout = some v → (getSettingsMain s).timeout = v) ∧
      (s.unit = none → (getSettingsMain s).unit = "hours") ∧
      (∀ u, s.unit = some u → (getSettingsMain s).unit = u) ∧
      (s.historyLimit = none → (getSettingsMain s).historyLimit = 1000) ∧
      (∀ v, s.historyLimit = some v → (getSettingsMain s).historyLimit = v)) ∧
    getSettings ⟨none, none, none⟩ =
      { timeout := 30, unit := "minutes", historyLimit := 100 } := by
  refine ⟨rfl, rfl, fun s => ⟨?_, ?_, ?_, ?_, ?_, ?_⟩, rfl⟩
  · intro h; simp [getSettingsMain, h, getDefaults]
  · intro v h; simp [getSettingsMain, h]
  · intro h; simp [getSettingsMain, h, getDefaults]
  · intro u h; simp [getSettingsMain, h]
  · intro h; simp [getSettingsMain, h, getDefaults]
  · intro v h; simp [getSettingsMain, h]

/-- C5 witness for the amended theorem: a store holding only timeout 5 and
historyLimit 0 overrides exactly those two fields. -/
theorem getSettingsMain_defaults_spec_witness :
    (getSettingsMain ⟨some 5, none, some 0⟩).timeout = 5 ∧
    (getSettingsMain ⟨some 5, none, some 0⟩).unit = "hours" ∧
    (getSettingsMain ⟨some 5, none, some 0⟩).historyLimit = 0 :=
  ⟨(getSettingsMain_defaults_spec.2.2.1 ⟨some 5, none, some 0⟩).2.1 5 rfl,
   (getSettingsMain_defaults_spec.2.2.1 ⟨some 5, none, some 0⟩).2.2.1 rfl,
   (getSettingsMain_defaults_spec.2.2.1 ⟨some 5, none, some 0⟩).2.2.2.2.2 0 rfl⟩

/-- C1 witness: a 1-minute timeout, a lone non-exempt tab stored as last
active at time 1000 and swept at time 10000000, instantiating the eviction
characterization. -/
theorem checkTabs_eviction_iff_witness :
    (1 : Nat) ∈ (checkTabs (fun _ => "uid") (fun _ => 42) 10000000
        [{ id := 1, title := "a", url := "b",
           pinned := false, audible := false, active := false }]
        ⟨⟨some 1, some "minutes", some 5⟩,
         ⟨fun i => if i = 1 then some 1000 else none,
          fun _ => false, []⟩⟩).2 ↔
      (false = false ∧ false = false ∧ false = false ∧ false = false ∧
       ∃ v, (if (1 : Nat) = 1 then some (1000 : Int) else none) = some v ∧
         10000000 - v > (getSettings ⟨some 1, some "minutes", some 5⟩).timeout *
           checkTabsMultiplier (getSettings ⟨some 1, some "minutes", some 5⟩).unit) :=
  checkTabs_eviction_iff (fun _ => "uid") (fun _ => 42) 10000000
    [{ id := 1, title := "a", url := "b",
       pinned := false, audible := false, active := false }]
    ⟨⟨some 1, some "minutes", some 5⟩,
     ⟨fun i => if i = 1 then some 1000 else none, fun _ => false, []⟩⟩
    { id := 1, title := "a", url := "b",
      pinned := false, audible := false, active := false }
    (by decide) (by decide) (by decide)
    (by
      intro i v hv
      dsimp only at hv
      by_cases hi : i = 1
      · rw [if_pos hi] at hv
        injection hv with hv'
        omega
      · rw [if_neg hi] at hv
        simp at hv)

/-- C2 witness: a protected tab (id 2) idle far past a 1-minute timeout is
not evicted and keeps its stored timestamp. -/
theorem checkTabs_protected_skip_witness :
    (2 : Nat) ∉ (checkTabs (fun _ => "uid") (fun _ => 42) 10000000
        [{ id := 2, title := "a", url := "b",
           pinned := false, audible := false, active := false }]
        ⟨⟨some 1, some "minutes", some 5⟩,
         ⟨fun i => if i = 2 then some 1000 else none,
          fun i => i == 2, []⟩⟩).2 ∧
    (checkTabs (fun _ => "uid") (fun _ => 42) 10000000
        [{ id := 2, title := "a", url := "b",
           pinned := false, audible := false, active := false }]
        ⟨⟨some 1, some "minutes", some 5⟩,
         ⟨fun i => if i = 2 then some 1000 else none,
          fun i => i == 2, []⟩⟩).1.store.tabTimes 2 = some 1000 :=
  checkTabs_protected_skip (fun _ => "uid") (fun _ => 42) 10000000
    [{ id := 2, title := "a", url := "b",
       pinned := false, audible := false, active := false }]
    ⟨⟨some 1, some "minutes", some 5⟩,
     ⟨fun i => if i = 2 then some 1000 else none, fun i => i == 2, []⟩⟩
    2 (by decide)

/-- C3 witness: a stored historyLimit of 2 with two pre-existing entries;
the append keeps the two newest of the three and the length bound holds. -/
theorem addClosedTab_spec_witness :
    addClosedTab "fresh" (getSettings ⟨none, none, some 2⟩).historyLimit
        [⟨some "x", "t1", "u1", 1⟩, ⟨some "y", "t2", "u2", 2⟩]
        ⟨none, "t0", "u0", 3⟩ =
      (assignId "fresh" ⟨none, "t0", "u0", 3⟩ ::
        [⟨some "x", "t1", "u1", 1⟩, ⟨some "y", "t2", "u2", 2⟩]).take
        (min (getSettings ⟨none, none, some 2⟩).historyLimit.toNat (2 + 1)) ∧
    ((addClosedTab "fresh" (getSettings ⟨none, none, some 2⟩).historyLimit
        [⟨some "x", "t1", "u1", 1⟩, ⟨some "y", "t2", "u2", 2⟩]
        ⟨none, "t0", "u0", 3⟩).length : Int) ≤
      (getSettings ⟨none, none, some 2⟩).historyLimit :=
  (addClosedTab_spec ⟨none, none, some 2⟩
    [⟨some "x", "t1", "u1", 1⟩, ⟨some "y", "t2", "u2", 2⟩]
    ⟨none, "t0", "u0", 3⟩ "fresh").2.1 (by decide)

/-- C6 witness: unprotecting tab 3 at time 500 and sweeping at the same time
(default 30-minute timeout) does not evict it. -/
theorem setTabProtection_spec_witness :
    (3 : Nat) ∉ (checkTabs (fun _ => "uid") (fun _ => 42) 500
        [{ id := 3, title := "a", url := "b",
           pinned := false, audible := false, active := false }]
        ⟨⟨none, none, none⟩,
         setTabProtection 500 ⟨fun _ => none, fun _ => false, []⟩ 3 false⟩).2 :=
  (setTabProtection_spec ⟨fun _ => none, fun _ => false, []⟩ 3 500).2.2
    ⟨none, none, none⟩
    [{ id := 3, title := "a", url := "b",
       pinned := false, audible := false, active := false }]
    (fun _ => "uid") (fun _ => 42) (by decide)

/-- C7 witness: with live id 1, the janitor drops the dead tracked key
`protected_2` and keeps the live `tab_1`, the history key and a settings
key. -/
theorem cleanUpStorage_spec_witness :
    cleanUpStorage
        [LKey.tab 1, LKey.prot 2, LKey.closedTabs, LKey.other "timeout"] [1] =
      [LKey.tab 1, LKey.prot 2, LKey.closedTabs,
        LKey.other "timeout"].filter (fun k => match k with
        | LKey.tab i => List.contains [1] i
        | LKey.prot i => List.contains [1] i
        | LKey.closedTabs => true
        | LKey.other _ => true) :=
  cleanUpStorage_spec
    [LKey.tab 1, LKey.prot 2, LKey.closedTabs, LKey.other "timeout"] [1]
    (by
      intro i h
      rcases h with h | h
      · simp at h
        omega
      · simp at h
        omega)

/-- C8 witness: a freshly observed tab (id 4, no stored timestamp) swept at
time 777 is touched to 777 and not evicted. -/
theorem checkTabs_fresh_first_sweep_witness :
    (checkTabs (fun _ => "uid") (fun _ => 42) 777
        [{ id := 4, title := "a", url := "b",
           pinned := false, audible := false, active := false }]
        ⟨⟨none, none, none⟩,
         ⟨fun _ => none, fun _ => false, []⟩⟩).1.store.tabTimes 4 = some 777 ∧
    (4 : Nat) ∉ (checkTabs (fun _ => "uid") (fun _ => 42) 777
        [{ id := 4, title := "a", url := "b",
           pinned := false, audible := false, active := false }]
        ⟨⟨none, none, none⟩,
         ⟨fun _ => none, fun _ => false, []⟩⟩).2 :=
  checkTabs_fresh_first_sweep (fun _ => "uid") (fun _ => 42) 777
    [{ id := 4, title := "a", url := "b",
       pinned := false, audible := false, active := false }]
    ⟨⟨none, none, none⟩, ⟨fun _ => none, fun _ => false, []⟩⟩
    { id := 4, title := "a", url := "b",
      pinned := false, audible := false, active := false }
    (by decide) rfl rfl rfl rfl rfl (by decide)

/-- C9 witness: removing the id "zz", which matches no entry, once or twice
leaves the singleton history unchanged. -/
theorem removeExpiredTab_idem_witness :
    removeExpiredTab (removeExpiredTab [⟨some "a", "t", "u", 1⟩] "zz") "zz" =
      removeExpiredTab [⟨some "a", "t", "u", 1⟩] "zz" ∧
    removeExpiredTab [⟨some "a", "t", "u", 1⟩] "zz" =
      [⟨some "a", "t", "u", 1⟩] :=
  ⟨(removeExpiredTab_idem [⟨some "a", "t", "u", 1⟩] "zz").1,
   (removeExpiredTab_idem [⟨some "a", "t", "u", 1⟩] "zz").2 (by decide)⟩

/-- C10 witness: one active unprotected tab (id 1) with a stored timestamp;
the sweep leaves settings and protection untouched, rewrites only `tab_1` to
the sweep's now, and appends nothing to the history. -/
theorem checkTabs_key_frame_witness :
    (checkTabs (fun _ => "uid") (fun _ => 42) 99999
        [{ id := 1, title := "a", url := "b",
           pinned := false, audible := false, active := true }]
        ⟨⟨some 1, some "minutes", some 5⟩,
         ⟨fun i => if i = 1 then some 1000 else none,
          fun _ => false, []⟩⟩).1.sync = ⟨some 1, some "minutes", some 5⟩ ∧
    (checkTabs (fun _ => "uid") (fun _ => 42) 99999
        [{ id := 1, title := "a", url := "b",
           pinned := false, audible := false, active := true }]
        ⟨⟨some 1, some "minutes", some 5⟩,
         ⟨fun i => if i = 1 then some 1000 else none,
          fun _ => false, []⟩⟩).1.store.tabTimes 1 = some 99999 ∧
    (checkTabs (fun _ => "uid") (fun _ => 42) 99999
        [{ id := 1, title := "a", url := "b",
           pinned := false, audible := false, active := true }]
        ⟨⟨some 1, some "minutes", some 5⟩,
         ⟨fun i => if i = 1 then some 1000 else none,
          fun _ => false, []⟩⟩).1.store.closedTabs = [] := by
  have h := checkTabs_key_frame (fun _ => "uid") (fun _ => 42) 99999
    [{ id := 1, title := "a", url := "b",
       pinned := false, audible := false, active := true }]
    ⟨⟨some 1, some "minutes", some 5⟩,
     ⟨fun i => if i = 1 then some 1000 else none, fun _ => false, []⟩⟩
    (by
      intro i v hv
      dsimp only at hv
      by_cases hi : i = 1
      · rw [if_pos hi] at hv
        injection hv with hv'
        omega
      · rw [if_neg hi] at hv
        simp at hv)
  exact ⟨h.1, h.2.2.1 1, h.2.2.2⟩
